import Mathlib

/-!
Verification of the gaia_capstone workflow and API layer.

The development shallowly embeds the Python sources:
* `src/graph/nodes.py` — `analyst_agent_node`, `human_feedback_node`;
* `src/graph/workflow.py` — `should_continue_or_end`, the conditional-edge
  mapping of `create_workflow`, and the resulting graph execution;
* `src/api/api.py` (identical in `src/api/api_2.py` for the listing
  endpoint) — the `/analyze-script` and `/analyzed-scripts` endpoints.

External effects (the AI agent call, the database) are passed in as
explicit outcome values, so every function below is pure and executable.
-/

namespace Gaia

/-- A Python exception as seen by the adapter: the fallback chain in
`analyst_agent_node` distinguishes `AttributeError` from every other
exception class. -/
inductive PyErr where
  | attributeError (msg : String)
  | other (msg : String)
deriving DecidableEq, Repr

/-- `str(e)` on the captured exception. -/
def PyErr.msg : PyErr → String
  | .attributeError m => m
  | .other m => m

/-- The wrapper shapes the agent may return: an object with an `output`
attribute, an object with a `result` attribute, or the raw payload
(`nodes.py` lines 38-43). The payload itself is opaque; a string stands
in for it. -/
inductive AgentResult where
  | withOutput (d : String)
  | withResult (d : String)
  | raw (d : String)
deriving DecidableEq, Repr

/-- Payload extraction from the result wrapper (`nodes.py` lines 38-43):
an `output` attribute is preferred, then a `result` attribute, else the
raw value. -/
def extractAnalysisData : AgentResult → String
  | .withOutput d => d
  | .withResult d => d
  | .raw d => d

deriving instance DecidableEq for Except

/-- The external agent, seen through the three call conventions the
adapter tries (`nodes.py` lines 27-33). Each convention either returns a
result or raises; an absent method surfaces as an `AttributeError`. -/
structure Agent where
  run_async : Except PyErr AgentResult
  run : Except PyErr AgentResult
  directCall : Except PyErr AgentResult
deriving DecidableEq, Repr

/-- The fallback chain of `nodes.py` lines 27-33: try `run_async`; on
`AttributeError` try `run`; on `AttributeError` again, call the agent
directly.  Only `AttributeError` triggers a fallback; any other
exception propagates, and whatever the direct call does propagates. -/
def invokeAgent (a : Agent) : Except PyErr AgentResult :=
  match a.run_async with
  | .error (.attributeError _) =>
    match a.run with
    | .error (.attributeError _) => a.directCall
    | r => r
  | r => r

/-- `OptimizedWorkflowState`: the dict threaded through the graph.  Every
key may be absent, hence `Option` fields (absent = `none`). -/
structure WorkflowState where
  pdf_path : Option String := none
  status : Option String := none
  comprehensive_analysis : Option String := none
  errors : Option (List String) := none
  api_calls_used : Option Nat := none
  feedback_required : Option Bool := none
  feedback_text : Option String := none
deriving DecidableEq, Repr

/-- `analyst_agent_node` (`nodes.py` lines 7-57), with the external agent
call passed in.  On success it stores the extracted payload, sets
`status` to `analysis_completed` and `api_calls_used` to 2; on any
exception it sets `status` to `analysis_failed: <msg>`, appends the
message to `errors` (the existing list, defaulting to empty) and sets
`api_calls_used` to 1. -/
def analyst_agent_node (a : Agent) (state : WorkflowState) : WorkflowState :=
  match invokeAgent a with
  | .ok result =>
    { state with
      comprehensive_analysis := some (extractAnalysisData result),
      status := some "analysis_completed",
      api_calls_used := some 2 }
  | .error e =>
    { state with
      status := some ("analysis_failed: " ++ e.msg),
      errors := some (state.errors.getD [] ++ [e.msg]),
      api_calls_used := some 1 }

/-- The active `human_feedback_node` (`nodes.py` lines 60-72): defaults
`feedback_required` to false and `feedback_text` to "" when absent, then
returns the state with `feedback_required := false` and
`status := "analysis_completed"` unconditionally. -/
def human_feedback_node (state : WorkflowState) : WorkflowState :=
  let s1 := if state.feedback_required = none
            then { state with feedback_required := some false } else state
  let s2 := if s1.feedback_text = none
            then { s1 with feedback_text := some "" } else s1
  { s2 with feedback_required := some false, status := some "analysis_completed" }

/-- `should_continue_or_end` (`workflow.py` lines 5-12): reads
`feedback_required` with default false; returns `"unified_analysis"`
when true, else `"END"`. -/
def should_continue_or_end (state : WorkflowState) : String :=
  let feedback_required := state.feedback_required.getD false
  if feedback_required then "unified_analysis" else "END"

/-- The keys of the conditional-edge mapping registered in
`create_workflow` (`workflow.py` lines 26-33): the only router return
values the graph accepts. -/
def registeredRouteTargets : List String := ["END", "analyst_agent"]

/-- Execution of the compiled graph (`workflow.py` lines 14-35):
`analyst_agent` runs first, then `human_feedback`, then the router
decides.  A router value of `"END"` terminates, `"analyst_agent"` loops
back, and any value outside the registered mapping is a runtime error
(`none`).  `fuel` bounds the number of passes so the function is total;
running out of fuel also yields `none`. -/
def runGraph (a : Agent) : Nat → WorkflowState → Option WorkflowState
  | 0, _ => none
  | fuel + 1, s =>
    let s2 := human_feedback_node (analyst_agent_node a s)
    if should_continue_or_end s2 = "END" then some s2
    else if should_continue_or_end s2 = "analyst_agent" then runGraph a fuel s2
    else none

/-! ### The API layer (`src/api/api.py`) -/

/-- An `HTTPException` raised by an endpoint: status code and detail. -/
structure HttpError where
  status_code : Nat
  detail : String
deriving DecidableEq, Repr

/-- The JSON body of a successful `/analyze-script` response, restricted
to the fields the claims talk about (`api.py` lines 136-171). -/
structure AnalyzeResponse where
  status_code : Nat
  success : Bool
  message : String
  database_id : Option Nat := none
  database_error : Option String := none
deriving DecidableEq, Repr

/-- What one call of the `/analyze-script` endpoint did: the HTTP outcome
(either an error raised or a 200 body), whether the database save was
reached, and whether a record was actually created. -/
structure EndpointOutcome where
  response : Except HttpError AnalyzeResponse
  dbSaveAttempted : Bool
  dbRecordCreated : Bool
deriving DecidableEq, Repr

/-- Executable substring test on the underlying character lists, standing
in for the Python `in` operator on strings. -/
def strContains (hay needle : String) : Bool :=
  (List.range (hay.data.length + 1)).any fun i =>
    needle.data.isPrefixOf (hay.data.drop i)

/-- The timeout, in seconds, passed to `asyncio.wait_for` around the
agent call (`api.py` line 113). -/
def analysisTimeoutSeconds : Nat := 300

/-- The string-matching error classification of `api.py` lines 177-188:
substring `extract` or `validation` (case-insensitive) maps to 422,
`analysis` to 500, anything else to a generic 500. -/
def classifyError (msg : String) : HttpError :=
  if strContains msg.toLower "extract" then
    ⟨422, "PDF extraction failed: " ++ msg⟩
  else if strContains msg.toLower "validation" then
    ⟨422, "Script validation failed: " ++ msg⟩
  else if strContains msg.toLower "analysis" then
    ⟨500, "Analysis failed: " ++ msg⟩
  else
    ⟨500, "Unexpected error: " ++ msg⟩

/-- The `/analyze-script` endpoint (`api.py` lines 75-196) after file
validation, with the external effects passed in: `elapsed` is the
wall-clock duration of the agent call, `agentBehavior` its outcome (the
final workflow state, or the message of a raised exception), `save_to_db`
the query flag, and `dbSave` the outcome of the database layer (the id
of the created record, or the message of a raised exception).

If the agent call exceeds the timeout, an `HTTPException` 408 is raised
and re-raised by the `except HTTPException` arm, before any database
access.  If the agent raises, the message is classified into an HTTP
error, again before any database access.  On success, a 200 response is
built; when `save_to_db` is set, a failing save merely embeds
`database_error` in the 200 body while a successful save embeds
`database_id`. -/
def analyze_script (elapsed : Nat) (agentBehavior : Except String WorkflowState)
    (save_to_db : Bool) (dbSave : Except String Nat) : EndpointOutcome :=
  if elapsed > analysisTimeoutSeconds then
    { response := .error ⟨408, "Analysis timed out. Please try with a smaller script."⟩,
      dbSaveAttempted := false, dbRecordCreated := false }
  else
    match agentBehavior with
    | .error msg =>
      { response := .error (classifyError msg),
        dbSaveAttempted := false, dbRecordCreated := false }
    | .ok _result =>
      let base : AnalyzeResponse :=
        { status_code := 200, success := true,
          message := "Script analysis completed successfully" }
      if save_to_db then
        match dbSave with
        | .ok id =>
          { response := .ok { base with database_id := some id },
            dbSaveAttempted := true, dbRecordCreated := true }
        | .error m =>
          { response := .ok { base with database_error := some m },
            dbSaveAttempted := true, dbRecordCreated := false }
      else
        { response := .ok base, dbSaveAttempted := false, dbRecordCreated := false }

/-- A stored analyzed-script record, restricted to the fields the listing
endpoint touches. -/
structure ScriptRecord where
  id : Nat
  filename : String
  status : String
deriving DecidableEq, Repr

/-- Modelled from the spec: `database.services.AnalyzedScriptService`
lives outside `src/`; the spec describes the listing endpoint as
"pagination (`skip`, `limit`), ordering, optional status filter,
optional search term".  Plain skip/limit pagination over the store. -/
def service_get_all (store : List ScriptRecord) (skip limit : Nat) : List ScriptRecord :=
  (store.drop skip).take limit

/-- Modelled from the spec: record count of the store, optionally
restricted to one status (`AnalyzedScriptService.get_scripts_count`,
outside `src/`). -/
def service_count (store : List ScriptRecord) (statusFilter : Option String) : Nat :=
  match statusFilter with
  | none => store.length
  | some st => (store.filter (fun r => r.status = st)).length

/-- Modelled from the spec: filename search then pagination
(`AnalyzedScriptService.search_scripts`, outside `src/`). -/
def service_search (store : List ScriptRecord) (term : String) (skip limit : Nat) :
    List ScriptRecord :=
  ((store.filter (fun r => strContains r.filename term)).drop skip).take limit

/-- Modelled from the spec: status filter then pagination
(`AnalyzedScriptService.get_scripts_by_status`, outside `src/`). -/
def service_by_status (store : List ScriptRecord) (st : String) (skip limit : Nat) :
    List ScriptRecord :=
  ((store.filter (fun r => r.status = st)).drop skip).take limit

/-- The pagination metadata object built by the listing endpoint
(`api.py` lines 241-247). -/
structure Pagination where
  total : Nat
  skip : Nat
  limit : Nat
  returned : Nat
  has_more : Bool
deriving DecidableEq, Repr

/-- The body returned by `GET /analyzed-scripts`. -/
structure ListResponse where
  success : Bool
  data : List ScriptRecord
  pagination : Pagination
  search_term : Option String
deriving DecidableEq, Repr

/-- `GET /analyzed-scripts` (`api.py` lines 199-249; `api_2.py` lines
280-330 are identical): a search term takes priority and the reported
total is then the length of the returned page; otherwise a status filter
restricts both page and count; otherwise plain pagination with the full
count.  `has_more` is `(skip + len(scripts)) < total`. -/
def get_all_analyzed_scripts (store : List ScriptRecord) (skip limit : Nat)
    (status_filter search : Option String) : ListResponse :=
  let scripts :=
    match search with
    | some term => service_search store term skip limit
    | none =>
      match status_filter with
      | some st => service_by_status store st skip limit
      | none => service_get_all store skip limit
  let total_count :=
    match search with
    | some term => (service_search store term skip limit).length
    | none =>
      match status_filter with
      | some st => service_count store (some st)
      | none => service_count store none
  { success := true
    data := scripts
    pagination :=
      { total := total_count, skip := skip, limit := limit,
        returned := scripts.length,
        has_more := skip + scripts.length < total_count }
    search_term := search }

/-! ### Spec-side definitions for comparing the adapter against the
specification wording -/

/-- A convention attempt that returned without raising. -/
def isSuccess : Except PyErr AgentResult → Bool
  | .ok _ => true
  | .error _ => false

/-- The reading of the spec sentence taken literally: the result of the
first of the three call conventions, in order, that succeeds (returns
without raising any exception). -/
def firstSuccessfulConvention (a : Agent) : Option AgentResult :=
  match [a.run_async, a.run, a.directCall].find? isSuccess with
  | some (.ok r) => some r
  | _ => none

/-- A convention attempt that raised `AttributeError`. -/
def isAttributeErrorOutcome : Except PyErr AgentResult → Bool
  | .error (.attributeError _) => true
  | _ => false

/-- The amended adapter contract, written from the amended wording: the
outcome used (value or propagated exception) is that of the first
convention, in order, that does not raise `AttributeError`; when all
three raise `AttributeError`, the outcome of the direct call
propagates. -/
def specFirstNonAttributeError (a : Agent) : Except PyErr AgentResult :=
  match [a.run_async, a.run, a.directCall].find?
      (fun r => ! isAttributeErrorOutcome r) with
  | some r => r
  | none => a.directCall

/-! ### Theorems -/

/-- C1: for any agent outcome and any input state, the analyst node
returns a state where exactly one of (`comprehensive_analysis` present
and `api_calls_used == 2`) or (`errors` non-empty and
`api_calls_used == 1`) holds. -/
theorem analyst_node_exactly_one_outcome (a : Agent) (s : WorkflowState) :
    Xor'
      ((analyst_agent_node a s).comprehensive_analysis.isSome = true ∧
        (analyst_agent_node a s).api_calls_used = some 2)
      ((analyst_agent_node a s).errors.getD [] ≠ [] ∧
        (analyst_agent_node a s).api_calls_used = some 1) := by
  rcases hinv : invokeAgent a with r | e <;>
    simp [analyst_agent_node, hinv, Xor']

/-- C2: for every agent, every input state and any fuel bound of at
least one pass, the compiled graph terminates after exactly one pass
through both nodes: it returns the state produced by `human_feedback_node`
applied once to the `analyst_agent_node` output, because the feedback
node forces `feedback_required` to false and the router then answers
`END`. -/
theorem graph_terminates_after_one_pass (a : Agent) (fuel : Nat)
    (s : WorkflowState) :
    runGraph a (fuel + 1) s =
      some (human_feedback_node (analyst_agent_node a s)) := by
  have h : should_continue_or_end (human_feedback_node (analyst_agent_node a s))
      = "END" := rfl
  simp [runGraph, h]

/-- C3: evaluation at the failing input. On a state with
`feedback_required = true` the router returns `"unified_analysis"`,
which is not one of the targets registered in the conditional-edge
mapping of `create_workflow` — the loop-back key registered there is
`"analyst_agent"`, so the graph cannot route the returned value. -/
theorem routing_target_unregistered_on_feedback :
    should_continue_or_end { feedback_required := some true } = "unified_analysis" ∧
    "unified_analysis" ∉ registeredRouteTargets ∧
    "analyst_agent" ∈ registeredRouteTargets := by
  refine ⟨rfl, ?_, ?_⟩ <;> decide

/-- C4: whenever the agent invocation raises, the analyst node returns
the input state changed only in `status` (set to `analysis_failed: `
followed by the message), `errors` (the message appended) and
`api_calls_used` (set to 1); every other field is unchanged. -/
theorem analyst_node_failure_state (a : Agent) (s : WorkflowState)
    (e : PyErr) (h : invokeAgent a = .error e) :
    analyst_agent_node a s =
      { s with
        status := some ("analysis_failed: " ++ e.msg),
        errors := some (s.errors.getD [] ++ [e.msg]),
        api_calls_used := some 1 } := by
  unfold analyst_agent_node
  rw [h]

/-- Witness for C4 at a concrete agent whose `run_async` raises a
non-attribute exception, and the empty input state. -/
theorem analyst_node_failure_state_witness :
    invokeAgent ⟨.error (.other "boom"), .ok (.raw "x"), .ok (.raw "y")⟩ =
      .error (.other "boom") ∧
    analyst_agent_node ⟨.error (.other "boom"), .ok (.raw "x"), .ok (.raw "y")⟩ {} =
      { status := some "analysis_failed: boom",
        errors := some ["boom"],
        api_calls_used := some 1 } :=
  ⟨rfl, analyst_node_failure_state _ {} (.other "boom") rfl⟩

/-- C5: the routing predicate is total and deterministic — on every
state, also one missing the `feedback_required` key, it returns one of
its two outcomes (the loop-back value `"unified_analysis"` or `"END"`)
— and it reads only `feedback_required`: two states agreeing on that
field get the same answer. -/
theorem routing_total_pure (s : WorkflowState) :
    (should_continue_or_end s = "unified_analysis" ∨
      should_continue_or_end s = "END") ∧
    ∀ s₂ : WorkflowState, s.feedback_required = s₂.feedback_required →
      should_continue_or_end s = should_continue_or_end s₂ := by
  constructor
  · unfold should_continue_or_end
    cases s.feedback_required.getD false <;> simp
  · intro s₂ h
    unfold should_continue_or_end
    rw [h]

/-- Witness for C5: totality at the empty state, and agreement between
two states that differ everywhere except `feedback_required`. -/
theorem routing_total_pure_witness :
    (should_continue_or_end {} = "unified_analysis" ∨
      should_continue_or_end {} = "END") ∧
    should_continue_or_end {} =
      should_continue_or_end { pdf_path := some "a.pdf", errors := some ["e"] } :=
  ⟨(routing_total_pure {}).1,
    (routing_total_pure {}).2 { pdf_path := some "a.pdf", errors := some ["e"] } rfl⟩

/-- C6 counterexample: an agent whose `run_async` exists but raises a
non-attribute exception while `run` succeeds. The first convention that
succeeds is `run`, yet the adapter propagates the `run_async` exception
and never uses the `run` result. -/
theorem adapter_not_first_success :
    firstSuccessfulConvention
        ⟨.error (.other "boom"), .ok (.raw "analysis"), .ok (.raw "x")⟩ =
      some (.raw "analysis") ∧
    invokeAgent ⟨.error (.other "boom"), .ok (.raw "analysis"), .ok (.raw "x")⟩ =
      .error (.other "boom") :=
  ⟨rfl, rfl⟩

/-- C6 amended: the adapter tries `run_async`, `run`, then the direct
call in that fixed order, falling back only on `AttributeError`; the
outcome used — returned value or propagated exception — is that of the
first convention that does not raise `AttributeError` (the outcome of
the direct call propagating when all three do). -/
theorem adapter_first_non_attribute_error (a : Agent) :
    invokeAgent a = specFirstNonAttributeError a := by
  obtain ⟨ra, rr, dc⟩ := a
  rcases ra with (m1 | m1) | r1 <;>
    rcases rr with (m2 | m2) | r2 <;>
    rcases dc with (m3 | m3) | r3 <;>
    rfl

/-- C7: when the agent call completes within the timeout but the
database save raises, the endpoint still returns the analysis with HTTP
200; the save failure is embedded in the body as `database_error` and no
HTTP error is raised (and no record is created). -/
theorem analyze_script_db_error_nonfatal (elapsed : Nat) (r : WorkflowState)
    (m : String) (h : elapsed ≤ analysisTimeoutSeconds) :
    analyze_script elapsed (.ok r) true (.error m) =
      { response := .ok
          { status_code := 200, success := true,
            message := "Script analysis completed successfully",
            database_id := none, database_error := some m },
        dbSaveAttempted := true, dbRecordCreated := false } := by
  unfold analyze_script
  rw [if_neg (by omega)]
  rfl

/-- Witness for C7: a 5-second analysis with a failing save. -/
theorem analyze_script_db_error_nonfatal_witness :
    5 ≤ analysisTimeoutSeconds ∧
    analyze_script 5 (.ok {}) true (.error "db down") =
      { response := .ok
          { status_code := 200, success := true,
            message := "Script analysis completed successfully",
            database_id := none, database_error := some "db down" },
        dbSaveAttempted := true, dbRecordCreated := false } :=
  ⟨by decide, analyze_script_db_error_nonfatal 5 {} "db down" (by decide)⟩

/-- C8: when the agent call exceeds the 300-second timeout, the endpoint
raises HTTP 408 and the database save step is never reached: no record
is created, whatever the agent would have returned, the save flag, or
the database behaviour. -/
theorem analyze_script_timeout_no_record (elapsed : Nat)
    (b : Except String WorkflowState) (sdb : Bool) (dbs : Except String Nat)
    (h : elapsed > analysisTimeoutSeconds) :
    analyze_script elapsed b sdb dbs =
      { response := .error
          ⟨408, "Analysis timed out. Please try with a smaller script."⟩,
        dbSaveAttempted := false, dbRecordCreated := false } := by
  unfold analyze_script
  rw [if_pos h]

/-- Witness for C8: a 301-second agent call with saving requested and a
database that would have succeeded. -/
theorem analyze_script_timeout_no_record_witness :
    301 > analysisTimeoutSeconds ∧
    analyze_script 301 (.ok {}) true (.ok 7) =
      { response := .error
          ⟨408, "Analysis timed out. Please try with a smaller script."⟩,
        dbSaveAttempted := false, dbRecordCreated := false } :=
  ⟨by decide, analyze_script_timeout_no_record 301 (.ok {}) true (.ok 7) (by decide)⟩

/-- C9: listing with `skip = 0`, `limit = 10`, no filter and no search
on an empty store returns an empty page with `total = 0` and
`has_more = false`. -/
theorem list_empty_store :
    get_all_analyzed_scripts [] 0 10 none none =
      { success := true, data := [],
        pagination :=
          { total := 0, skip := 0, limit := 10, returned := 0, has_more := false },
        search_term := none } := rfl

/-- C10: for every input state the feedback node reports
`analysis_completed` and clears `feedback_required`, while leaving
`errors`, `comprehensive_analysis`, `pdf_path` and `api_calls_used`
untouched — so after a failed analysis the final status still reads
`analysis_completed` even though `errors` is non-empty. -/
theorem human_feedback_forces_completion (s : WorkflowState) :
    (human_feedback_node s).status = some "analysis_completed" ∧
    (human_feedback_node s).feedback_required = some false ∧
    (human_feedback_node s).errors = s.errors ∧
    (human_feedback_node s).comprehensive_analysis = s.comprehensive_analysis ∧
    (human_feedback_node s).pdf_path = s.pdf_path ∧
    (human_feedback_node s).api_calls_used = s.api_calls_used := by
  obtain ⟨p, st, ca, er, ac, fr, ft⟩ := s
  cases fr <;> cases ft <;> exact ⟨rfl, rfl, rfl, rfl, rfl, rfl⟩

end Gaia
